import Mathlib

/-
Verification development for the invoice server actions of the
financial-dashboard repository (src/app/lib/action.ts).

The file embeds, as pure Lean functions:
  - the zod FormSchema (with id and date omitted, as CreateInvoice and
    UpdateInvoice both do) including the coercion performed by
    z.coerce.number() on form values;
  - createInvoice, updateInvoice, deleteInvoice and authenticate, with
    their external effects (SQL statements, revalidatePath, redirect)
    recorded as an explicit event trace, and the outcome of the external
    calls (database success or failure, signIn outcome) supplied as
    parameters.
-/

/-- Result of FormData.get(key): a string when the field is present, null
when it is absent.  (File values are out of scope for these actions.) -/
inductive FieldVal where
  | null : FieldVal
  | str (s : String) : FieldVal
deriving DecidableEq, Repr

/-- The raw form submission as the actions read it: the five keys of
FormSchema.  createInvoice and updateInvoice only ever call
formData.get on customerId, amount and status. -/
structure FormDataM where
  id : FieldVal
  date : FieldVal
  customerId : FieldVal
  amount : FieldVal
  status : FieldVal
deriving DecidableEq, Repr

/-- Numeric value of one decimal digit. -/
def digitVal (c : Char) : Option Nat :=
  if c.isDigit then some (c.toNat - 48) else none

/-- Value of a pure digit string; an empty list gives 0, any non-digit
character gives none. -/
def digitsVal (cs : List Char) : Option Nat :=
  cs.foldl (fun acc c => acc.bind (fun a => (digitVal c).map (fun d => 10 * a + d))) (some 0)

/-- Unsigned decimal literal, the fragment of the JS Number() grammar the
form fields use: digits, optionally with one decimal point; at least one
digit overall.  none models NaN. -/
def parseUnsignedDecimal (cs : List Char) : Option ℚ :=
  if cs = [] then none
  else
    match cs.span (fun c => c ≠ '.') with
    | (intPart, []) => (digitsVal intPart).map (fun n => (n : ℚ))
    | (intPart, _ :: fracPart) =>
      if fracPart.contains '.' then none
      else if intPart = [] ∧ fracPart = [] then none
      else (digitsVal intPart).bind (fun i =>
        (digitsVal fracPart).map (fun f =>
          (i : ℚ) + (f : ℚ) / (10 : ℚ) ^ fracPart.length))

/-- Leading and trailing whitespace stripped, as Number() ignores it. -/
def trimWs (cs : List Char) : List Char :=
  ((cs.dropWhile Char.isWhitespace).reverse.dropWhile Char.isWhitespace).reverse

/-- JS Number() on a string, restricted to the decimal fragment: leading
and trailing whitespace is ignored, the empty string is 0, an optional
sign precedes the digits.  none models NaN. -/
def parseDecimal (s : String) : Option ℚ :=
  match trimWs s.toList with
  | [] => some 0
  | '-' :: rest => (parseUnsignedDecimal rest).map (fun q => -q)
  | '+' :: rest => parseUnsignedDecimal rest
  | cs => parseUnsignedDecimal cs

/-- The coercion performed by z.coerce.number() on a FormData value:
Number(null) is 0, a string is read as a decimal number, NaN is none. -/
def jsNumber : FieldVal → Option ℚ
  | FieldVal.null => some 0
  | FieldVal.str s => parseDecimal s

/-- The two values of the zod status enum. -/
inductive Status where
  | pending : Status
  | paid : Status
deriving DecidableEq, Repr

/-- The string the database receives for a status value. -/
def Status.toDb : Status → String
  | Status.pending => "pending"
  | Status.paid => "paid"

/-- customerId field: z.string() with invalid type error message
"Please select a customer.".  A missing field (null) is an invalid type. -/
def validateCustomerId : FieldVal → Except (List String) String
  | FieldVal.str s => Except.ok s
  | FieldVal.null => Except.error ["Please select a customer."]

/-- amount field: z.coerce.number().gt(0, ...).  A NaN coercion is a type
error with the zod default message; a number that is not greater than 0
fails the gt check with the configured message. -/
def validateAmount (v : FieldVal) : Except (List String) ℚ :=
  match jsNumber v with
  | none => Except.error ["Expected number, received nan"]
  | some q =>
    if 0 < q then Except.ok q
    else Except.error ["Please enter an amount greater than $0."]

/-- The zod default message for a string outside the status enum. -/
def enumErrorMsg (s : String) : String :=
  "Invalid enum value. Expected \x27pending\x27 | \x27paid\x27, received \x27" ++ s ++ "\x27"

/-- status field: z.enum of pending and paid, with invalid type error
message "Please select an invoice status." for a missing (null) value and
the zod default invalid enum value message for other strings. -/
def validateStatus : FieldVal → Except (List String) Status
  | FieldVal.null => Except.error ["Please select an invoice status."]
  | FieldVal.str s =>
    if s = "pending" then Except.ok Status.pending
    else if s = "paid" then Except.ok Status.paid
    else Except.error [enumErrorMsg s]

/-- The per-field error lists of a failed parse, as
validatedFields.error.flatten().fieldErrors exposes them (a field with no
errors carries the empty list). -/
structure FieldErrors where
  customerId : List String
  amount : List String
  status : List String
deriving DecidableEq, Repr

/-- The typed record produced by a successful parse. -/
structure InvoiceData where
  customerId : String
  amount : ℚ
  status : Status
deriving DecidableEq, Repr

/-- Error list of a field validator result: empty for a success. -/
def errsOf {α : Type} : Except (List String) α → List String
  | Except.ok _ => []
  | Except.error es => es

/-- CreateInvoice.safeParse and UpdateInvoice.safeParse (both are
FormSchema.omit of id and date, so they coincide): validate the three
remaining fields, succeeding only when all three do and otherwise
collecting every field error. -/
def safeParseInvoiceForm (fd : FormDataM) : Except FieldErrors InvoiceData :=
  match validateCustomerId fd.customerId, validateAmount fd.amount, validateStatus fd.status with
  | Except.ok c, Except.ok a, Except.ok s => Except.ok ⟨c, a, s⟩
  | rc, ra, rs => Except.error ⟨errsOf rc, errsOf ra, errsOf rs⟩

/-- External effects an action performs, in order. -/
inductive Event where
  | insertInvoice (customer_id : String) (amount : ℚ) (status : String) (date : String) : Event
  | updateInvoiceRow (id : String) (customer_id : String) (amount : ℚ) (status : String) : Event
  | deleteInvoiceRow (id : String) : Event
  | revalidate (path : String) : Event
  | redirectTo (path : String) : Event
deriving DecidableEq, Repr

/-- The State value the actions return: optional field errors and an
optional summary message. -/
structure FormState where
  errors : Option FieldErrors
  message : Option String
deriving DecidableEq, Repr

/-- How an action invocation ends: a normal return of undefined, a normal
return of a State value, a control transfer via redirect (which throws
and so never returns normally), or an exception propagated to the
caller. -/
inductive ActionResult where
  | unit : ActionResult
  | state (s : FormState) : ActionResult
  | redirected (path : String) : ActionResult
  | thrown (e : String) : ActionResult
deriving DecidableEq, Repr

/-- createInvoice: parse the form; on failure return the field errors with
the fixed message; otherwise compute amountInCents = 100 * amount, insert
(customer_id, amountInCents, status, date) with the server-assigned date,
catch a database failure as a message, and on success revalidate the
invoices path and redirect to it.  today stands for
new Date().toISOString().split("T")[0]; dbFails tells whether the INSERT
throws. -/
def createInvoice (today : String) (dbFails : Bool) (fd : FormDataM) :
    List Event × ActionResult :=
  match safeParseInvoiceForm fd with
  | Except.error fe =>
    ([], ActionResult.state ⟨some fe, some "Missing Fields. Failed to Create Invoice."⟩)
  | Except.ok d =>
    let amountInCents : ℚ := 100 * d.amount
    let ins := Event.insertInvoice d.customerId amountInCents d.status.toDb today
    if dbFails then
      ([ins], ActionResult.state ⟨none, some "Database Error: Failed to Create Invoice."⟩)
    else
      ([ins, Event.revalidate "/dashboard/invoices", Event.redirectTo "/dashboard/invoices"],
        ActionResult.redirected "/dashboard/invoices")

/-- updateInvoice: same parse; on success compute amountInCents =
amount * 100 and UPDATE the row matching id, catch a database failure as
a message, then revalidate and redirect. -/
def updateInvoice (id : String) (dbFails : Bool) (fd : FormDataM) :
    List Event × ActionResult :=
  match safeParseInvoiceForm fd with
  | Except.error fe =>
    ([], ActionResult.state ⟨some fe, some "Missing Fields. Failed to Update Invoice."⟩)
  | Except.ok d =>
    let amountInCents : ℚ := d.amount * 100
    let upd := Event.updateInvoiceRow id d.customerId amountInCents d.status.toDb
    if dbFails then
      ([upd], ActionResult.state ⟨none, some "Database Error: Failed to Update Invoice."⟩)
    else
      ([upd, Event.revalidate "/dashboard/invoices", Event.redirectTo "/dashboard/invoices"],
        ActionResult.redirected "/dashboard/invoices")

/-- deleteInvoice: DELETE the row matching id, catching a database failure
as a message; on success revalidate the invoices path and return
undefined.  No redirect on any path. -/
def deleteInvoice (dbFails : Bool) (id : String) : List Event × ActionResult :=
  if dbFails then
    ([Event.deleteInvoiceRow id],
      ActionResult.state ⟨none, some "Database Error: Failed to Delete Invoice."⟩)
  else
    ([Event.deleteInvoiceRow id, Event.revalidate "/dashboard/invoices"], ActionResult.unit)

/-- Outcome of the signIn("credentials", formData) call: success, an
AuthError carrying its type string, or any other thrown error. -/
inductive SignInOutcome where
  | ok : SignInOutcome
  | authErr (ty : String) : SignInOutcome
  | nonAuthErr (e : String) : SignInOutcome
deriving DecidableEq, Repr

/-- authenticate: try signIn; an AuthError of type CredentialsSignin
becomes the message "Invalid credentials.", any other AuthError becomes
"Something went wrong.", and a non-AuthError is re-thrown. -/
def authenticate (r : SignInOutcome) : ActionResult :=
  match r with
  | SignInOutcome.ok => ActionResult.unit
  | SignInOutcome.authErr ty =>
    if ty = "CredentialsSignin" then ActionResult.state ⟨none, some "Invalid credentials."⟩
    else ActionResult.state ⟨none, some "Something went wrong."⟩
  | SignInOutcome.nonAuthErr e => ActionResult.thrown e

/-- The amount bound into a persistence write event, when there is one. -/
def passedAmount : Event → Option ℚ
  | Event.insertInvoice _ a _ _ => some a
  | Event.updateInvoiceRow _ _ a _ => some a
  | _ => none

/-- The amount the first external call of a trace passes to the store. -/
def firstPassedAmount (t : List Event) : Option ℚ :=
  t.head?.bind passedAmount

/-- The revalidated paths of a trace, in order. -/
def revalidations (t : List Event) : List String :=
  t.filterMap (fun e =>
    match e with
    | Event.revalidate p => some p
    | _ => none)

/-- A form whose three read fields are valid: parsing yields
customer "c1", amount 5, status paid. -/
def fdValid : FormDataM :=
  ⟨FieldVal.null, FieldVal.null, FieldVal.str "c1", FieldVal.str "5", FieldVal.str "paid"⟩

/-- The same three read fields as fdValid, but with id and date entries
present in the submitted form data. -/
def fdValidExtra : FormDataM :=
  ⟨FieldVal.str "inv9", FieldVal.str "1999-01-01",
    FieldVal.str "c1", FieldVal.str "5", FieldVal.str "paid"⟩

/-- A form with every field absent. -/
def fdEmpty : FormDataM :=
  ⟨FieldVal.null, FieldVal.null, FieldVal.null, FieldVal.null, FieldVal.null⟩

lemma parse_fdValid : safeParseInvoiceForm fdValid = Except.ok ⟨"c1", 5, Status.paid⟩ := rfl

lemma parse_fdEmpty :
    safeParseInvoiceForm fdEmpty =
      Except.error ⟨["Please select a customer."],
        ["Please enter an amount greater than $0."],
        ["Please select an invoice status."]⟩ := rfl

/-- A successful parse of each field gives a successful parse of the form. -/
lemma safeParse_ok (fd : FormDataM) (c : String) (a : ℚ) (st : Status)
    (hc : validateCustomerId fd.customerId = Except.ok c)
    (ha : validateAmount fd.amount = Except.ok a)
    (hs : validateStatus fd.status = Except.ok st) :
    safeParseInvoiceForm fd = Except.ok ⟨c, a, st⟩ := by
  simp [safeParseInvoiceForm, hc, ha, hs]

/-- A failing amount field makes the form parse fail, with exactly the
amount errors reported for the amount key. -/
lemma safeParse_amount_error (fd : FormDataM) (es : List String)
    (ha : validateAmount fd.amount = Except.error es) :
    ∃ fe, safeParseInvoiceForm fd = Except.error fe ∧ fe.amount = es := by
  rcases hc : validateCustomerId fd.customerId with ec | c <;>
    rcases hs : validateStatus fd.status with esl | st
  · exact ⟨⟨ec, es, esl⟩, by simp [safeParseInvoiceForm, hc, ha, hs, errsOf], rfl⟩
  · exact ⟨⟨ec, es, []⟩, by simp [safeParseInvoiceForm, hc, ha, hs, errsOf], rfl⟩
  · exact ⟨⟨[], es, esl⟩, by simp [safeParseInvoiceForm, hc, ha, hs, errsOf], rfl⟩
  · exact ⟨⟨[], es, []⟩, by simp [safeParseInvoiceForm, hc, ha, hs, errsOf], rfl⟩

/-- A failing status field makes the form parse fail, with exactly the
status errors reported for the status key. -/
lemma safeParse_status_error (fd : FormDataM) (es : List String)
    (hs : validateStatus fd.status = Except.error es) :
    ∃ fe, safeParseInvoiceForm fd = Except.error fe ∧ fe.status = es := by
  rcases hc : validateCustomerId fd.customerId with ec | c <;>
    rcases ha : validateAmount fd.amount with ea | a
  · exact ⟨⟨ec, ea, es⟩, by simp [safeParseInvoiceForm, hc, ha, hs, errsOf], rfl⟩
  · exact ⟨⟨ec, [], es⟩, by simp [safeParseInvoiceForm, hc, ha, hs, errsOf], rfl⟩
  · exact ⟨⟨[], ea, es⟩, by simp [safeParseInvoiceForm, hc, ha, hs, errsOf], rfl⟩
  · exact ⟨⟨[], [], es⟩, by simp [safeParseInvoiceForm, hc, ha, hs, errsOf], rfl⟩

lemma validateCustomerId_error_ne_nil (v : FieldVal) (es : List String)
    (h : validateCustomerId v = Except.error es) : es ≠ [] := by
  cases v <;> simp [validateCustomerId] at h <;> simp [← h]

lemma validateAmount_error_ne_nil (v : FieldVal) (es : List String)
    (h : validateAmount v = Except.error es) : es ≠ [] := by
  unfold validateAmount at h
  rcases hj : jsNumber v with _ | q <;> simp only [hj] at h
  · simp only [Except.error.injEq] at h
    subst h
    simp
  · split at h
    · simp at h
    · simp only [Except.error.injEq] at h
      subst h
      simp

lemma validateStatus_error_ne_nil (v : FieldVal) (es : List String)
    (h : validateStatus v = Except.error es) : es ≠ [] := by
  cases v with
  | null =>
    simp only [validateStatus, Except.error.injEq] at h
    subst h
    simp
  | str s =>
    simp only [validateStatus] at h
    split at h
    · simp at h
    · split at h
      · simp at h
      · simp only [Except.error.injEq] at h
        subst h
        simp

/-- A failed parse carries at least one message on some field. -/
lemma safeParse_error_nonempty (fd : FormDataM) (fe : FieldErrors)
    (h : safeParseInvoiceForm fd = Except.error fe) :
    fe.customerId ≠ [] ∨ fe.amount ≠ [] ∨ fe.status ≠ [] := by
  unfold safeParseInvoiceForm at h
  rcases hc : validateCustomerId fd.customerId with ec | c <;>
    rcases ha : validateAmount fd.amount with ea | a <;>
    rcases hs : validateStatus fd.status with es | st <;>
    rw [hc, ha, hs] at h <;> simp at h
  · exact Or.inl (by rw [← h]; exact validateCustomerId_error_ne_nil _ _ hc)
  · exact Or.inl (by rw [← h]; exact validateCustomerId_error_ne_nil _ _ hc)
  · exact Or.inl (by rw [← h]; exact validateCustomerId_error_ne_nil _ _ hc)
  · exact Or.inl (by rw [← h]; exact validateCustomerId_error_ne_nil _ _ hc)
  · exact Or.inr (Or.inl (by rw [← h]; exact validateAmount_error_ne_nil _ _ ha))
  · exact Or.inr (Or.inl (by rw [← h]; exact validateAmount_error_ne_nil _ _ ha))
  · exact Or.inr (Or.inr (by rw [← h]; exact validateStatus_error_ne_nil _ _ hs))

/-- C2: authenticate returns the message "Invalid credentials." when the
provider raises an AuthError of type CredentialsSignin, returns
"Something went wrong." for every other AuthError type, and re-throws
(does not catch) every error that is not an AuthError. -/
theorem C2_authenticate_error_mapping :
    authenticate (SignInOutcome.authErr "CredentialsSignin") =
      ActionResult.state ⟨none, some "Invalid credentials."⟩ ∧
    (∀ t, t ≠ "CredentialsSignin" →
      authenticate (SignInOutcome.authErr t) =
        ActionResult.state ⟨none, some "Something went wrong."⟩) ∧
    (∀ e, authenticate (SignInOutcome.nonAuthErr e) = ActionResult.thrown e) := by
  refine ⟨rfl, ?_, fun e => rfl⟩
  intro t ht
  simp [authenticate, ht]

/-- Witness for C2 at the AuthError type "AccessDenied" and a
non-AuthError payload "boom". -/
theorem C2_authenticate_error_mapping_witness :
    authenticate (SignInOutcome.authErr "AccessDenied") =
      ActionResult.state ⟨none, some "Something went wrong."⟩ ∧
    authenticate (SignInOutcome.nonAuthErr "boom") = ActionResult.thrown "boom" :=
  ⟨C2_authenticate_error_mapping.2.1 "AccessDenied" (by decide),
    C2_authenticate_error_mapping.2.2 "boom"⟩

/-- C7: deleteInvoice never throws: for every id and every behaviour of
the underlying DELETE it either completes successfully, revalidating the
listing path, or returns a FormState carrying the database error
message; in particular the error raised by the store is never
propagated. -/
theorem C7_deleteInvoice_never_throws :
    ∀ (dbFails : Bool) (id : String),
      (deleteInvoice dbFails id =
          ([Event.deleteInvoiceRow id, Event.revalidate "/dashboard/invoices"],
            ActionResult.unit) ∨
        deleteInvoice dbFails id =
          ([Event.deleteInvoiceRow id],
            ActionResult.state ⟨none, some "Database Error: Failed to Delete Invoice."⟩)) ∧
      ∀ e, (deleteInvoice dbFails id).2 ≠ ActionResult.thrown e := by
  intro dbFails id
  cases dbFails <;> simp [deleteInvoice]

/-- C8: deleteInvoice never transfers control: no redirect event ever
appears in its trace and its result is never a redirect; on success the
only path it revalidates is the invoice listing route. -/
theorem C8_deleteInvoice_never_redirects :
    ∀ (dbFails : Bool) (id : String),
      (∀ p, Event.redirectTo p ∉ (deleteInvoice dbFails id).1) ∧
      (∀ p, (deleteInvoice dbFails id).2 ≠ ActionResult.redirected p) ∧
      revalidations (deleteInvoice false id).1 = ["/dashboard/invoices"] := by
  intro dbFails id
  cases dbFails <;> simp [deleteInvoice, revalidations]

/-- C5: when validation and the write both succeed, createInvoice and
updateInvoice revalidate the listing path and then redirect to it, and
on this path they never return a FormState value. -/
theorem C5_success_revalidates_then_redirects
    (fd : FormDataM) (d : InvoiceData) (h : safeParseInvoiceForm fd = Except.ok d)
    (today id : String) :
    createInvoice today false fd =
      ([Event.insertInvoice d.customerId (100 * d.amount) d.status.toDb today,
        Event.revalidate "/dashboard/invoices", Event.redirectTo "/dashboard/invoices"],
        ActionResult.redirected "/dashboard/invoices") ∧
    updateInvoice id false fd =
      ([Event.updateInvoiceRow id d.customerId (d.amount * 100) d.status.toDb,
        Event.revalidate "/dashboard/invoices", Event.redirectTo "/dashboard/invoices"],
        ActionResult.redirected "/dashboard/invoices") ∧
    (∀ s, (createInvoice today false fd).2 ≠ ActionResult.state s) ∧
    (∀ s, (updateInvoice id false fd).2 ≠ ActionResult.state s) := by
  refine ⟨?_, ?_, ?_, ?_⟩ <;> simp [createInvoice, updateInvoice, h]

/-- Witness for C5 on a concrete valid form. -/
theorem C5_success_revalidates_then_redirects_witness :
    createInvoice "2026-10-11" false fdValid =
      ([Event.insertInvoice "c1" (100 * 5) "paid" "2026-10-11",
        Event.revalidate "/dashboard/invoices", Event.redirectTo "/dashboard/invoices"],
        ActionResult.redirected "/dashboard/invoices") ∧
    updateInvoice "inv1" false fdValid =
      ([Event.updateInvoiceRow "inv1" "c1" (5 * 100) "paid",
        Event.revalidate "/dashboard/invoices", Event.redirectTo "/dashboard/invoices"],
        ActionResult.redirected "/dashboard/invoices") ∧
    (∀ s, (createInvoice "2026-10-11" false fdValid).2 ≠ ActionResult.state s) ∧
    (∀ s, (updateInvoice "inv1" false fdValid).2 ≠ ActionResult.state s) :=
  C5_success_revalidates_then_redirects fdValid ⟨"c1", 5, Status.paid⟩ rfl "2026-10-11" "inv1"

/-- C3: when the INSERT fails, createInvoice returns a FormState whose
message is the database error message; it neither propagates the error
nor revalidates nor redirects. -/
theorem C3_create_db_failure_returns_message
    (fd : FormDataM) (d : InvoiceData) (h : safeParseInvoiceForm fd = Except.ok d)
    (today : String) :
    createInvoice today true fd =
      ([Event.insertInvoice d.customerId (100 * d.amount) d.status.toDb today],
        ActionResult.state ⟨none, some "Database Error: Failed to Create Invoice."⟩) ∧
    (∀ p, Event.revalidate p ∉ (createInvoice today true fd).1) ∧
    (∀ p, Event.redirectTo p ∉ (createInvoice today true fd).1) ∧
    (∀ e, (createInvoice today true fd).2 ≠ ActionResult.thrown e) ∧
    (∀ p, (createInvoice today true fd).2 ≠ ActionResult.redirected p) := by
  refine ⟨?_, ?_, ?_, ?_, ?_⟩ <;> simp [createInvoice, h]

/-- Witness for C3 on a concrete valid form whose INSERT fails. -/
theorem C3_create_db_failure_returns_message_witness :
    createInvoice "2026-10-11" true fdValid =
      ([Event.insertInvoice "c1" (100 * 5) "paid" "2026-10-11"],
        ActionResult.state ⟨none, some "Database Error: Failed to Create Invoice."⟩) ∧
    (∀ p, Event.revalidate p ∉ (createInvoice "2026-10-11" true fdValid).1) ∧
    (∀ p, Event.redirectTo p ∉ (createInvoice "2026-10-11" true fdValid).1) ∧
    (∀ e, (createInvoice "2026-10-11" true fdValid).2 ≠ ActionResult.thrown e) ∧
    (∀ p, (createInvoice "2026-10-11" true fdValid).2 ≠ ActionResult.redirected p) :=
  C3_create_db_failure_returns_message fdValid ⟨"c1", 5, Status.paid⟩ rfl "2026-10-11"

/-- C6: when validation fails, createInvoice and updateInvoice return
early a state with the field errors (at least one field carrying at
least one message) and the fixed summary message, and perform no write,
no revalidation and no redirect. -/
theorem C6_validation_failure_early_return
    (fd : FormDataM) (fe : FieldErrors) (h : safeParseInvoiceForm fd = Except.error fe)
    (today id : String) (dbFails : Bool) :
    createInvoice today dbFails fd =
      ([], ActionResult.state ⟨some fe, some "Missing Fields. Failed to Create Invoice."⟩) ∧
    updateInvoice id dbFails fd =
      ([], ActionResult.state ⟨some fe, some "Missing Fields. Failed to Update Invoice."⟩) ∧
    (fe.customerId ≠ [] ∨ fe.amount ≠ [] ∨ fe.status ≠ []) := by
  exact ⟨by simp [createInvoice, h], by simp [updateInvoice, h],
    safeParse_error_nonempty fd fe h⟩

/-- Witness for C6 on the empty form. -/
theorem C6_validation_failure_early_return_witness :
    createInvoice "2026-10-11" false fdEmpty =
      ([], ActionResult.state
        ⟨some ⟨["Please select a customer."],
          ["Please enter an amount greater than $0."],
          ["Please select an invoice status."]⟩,
          some "Missing Fields. Failed to Create Invoice."⟩) ∧
    updateInvoice "inv1" false fdEmpty =
      ([], ActionResult.state
        ⟨some ⟨["Please select a customer."],
          ["Please enter an amount greater than $0."],
          ["Please select an invoice status."]⟩,
          some "Missing Fields. Failed to Update Invoice."⟩) ∧
    ((["Please select a customer."] : List String) ≠ [] ∨
      (["Please enter an amount greater than $0."] : List String) ≠ [] ∨
      (["Please select an invoice status."] : List String) ≠ []) :=
  C6_validation_failure_early_return fdEmpty
    ⟨["Please select a customer."],
      ["Please enter an amount greater than $0."],
      ["Please select an invoice status."]⟩ rfl "2026-10-11" "inv1" false

/-- A form that is valid except for an unknown status string. -/
def fdOverdue : FormDataM :=
  ⟨FieldVal.null, FieldVal.null, FieldVal.str "c1", FieldVal.str "5", FieldVal.str "overdue"⟩

/-- A form that is valid except that the amount field is absent. -/
def fdNoAmount : FormDataM :=
  ⟨FieldVal.null, FieldVal.null, FieldVal.str "c1", FieldVal.null, FieldVal.str "paid"⟩

/-- A form that is valid except that the amount is 0. -/
def fdZeroAmount : FormDataM :=
  ⟨FieldVal.null, FieldVal.null, FieldVal.str "c1", FieldVal.str "0", FieldVal.str "paid"⟩

/-- A valid form whose amount 0.005 is not a whole number of cents. -/
def fdTinyAmount : FormDataM :=
  ⟨FieldVal.null, FieldVal.null, FieldVal.str "c1", FieldVal.str "0.005", FieldVal.str "paid"⟩

/-- C4: every status value outside pending and paid, a missing status
included, makes validation fail with a status field error; the values
pending and paid make the status field validate. -/
theorem C4_status_enum_validation :
    (∀ fd, fd.status = FieldVal.null →
      ∃ fe, safeParseInvoiceForm fd = Except.error fe ∧
        fe.status = ["Please select an invoice status."]) ∧
    (∀ fd s, fd.status = FieldVal.str s → s ≠ "pending" → s ≠ "paid" →
      ∃ fe, safeParseInvoiceForm fd = Except.error fe ∧ fe.status = [enumErrorMsg s]) ∧
    validateStatus (FieldVal.str "pending") = Except.ok Status.pending ∧
    validateStatus (FieldVal.str "paid") = Except.ok Status.paid := by
  refine ⟨?_, ?_, rfl, rfl⟩
  · intro fd hst
    exact safeParse_status_error fd _ (by rw [hst]; rfl)
  · intro fd s hst h1 h2
    exact safeParse_status_error fd _ (by rw [hst]; simp [validateStatus, h1, h2])

/-- Witness for C4: a missing status and the status "overdue" both fail
with a status field error. -/
theorem C4_status_enum_validation_witness :
    (∃ fe, safeParseInvoiceForm fdEmpty = Except.error fe ∧
      fe.status = ["Please select an invoice status."]) ∧
    (∃ fe, safeParseInvoiceForm fdOverdue = Except.error fe ∧
      fe.status = [enumErrorMsg "overdue"]) :=
  ⟨C4_status_enum_validation.1 fdEmpty rfl,
    C4_status_enum_validation.2.1 fdOverdue "overdue" rfl (by decide) (by decide)⟩

/-- C9: the outcome of createInvoice depends only on the customerId,
amount and status fields of the submitted form (any id or date entries
are ignored), and the inserted row always carries the server-assigned
current date. -/
theorem C9_create_ignores_id_and_date :
    (∀ (today : String) (dbFails : Bool) (fd1 fd2 : FormDataM),
      fd1.customerId = fd2.customerId → fd1.amount = fd2.amount → fd1.status = fd2.status →
      createInvoice today dbFails fd1 = createInvoice today dbFails fd2) ∧
    (∀ (today : String) (dbFails : Bool) (fd : FormDataM) (d : InvoiceData),
      safeParseInvoiceForm fd = Except.ok d →
      (createInvoice today dbFails fd).1.head? =
        some (Event.insertInvoice d.customerId (100 * d.amount) d.status.toDb today)) := by
  constructor
  · intro today dbFails fd1 fd2 h1 h2 h3
    have hp : safeParseInvoiceForm fd1 = safeParseInvoiceForm fd2 := by
      unfold safeParseInvoiceForm
      rw [h1, h2, h3]
    unfold createInvoice
    rw [hp]
  · intro today dbFails fd d h
    cases dbFails <;> simp [createInvoice, h]

/-- Witness for C9: id and date entries in the form do not change the
result, and the inserted row carries the server date. -/
theorem C9_create_ignores_id_and_date_witness :
    createInvoice "2026-10-11" false fdValidExtra = createInvoice "2026-10-11" false fdValid ∧
    (createInvoice "2026-10-11" false fdValid).1.head? =
      some (Event.insertInvoice "c1" (100 * 5) "paid" "2026-10-11") :=
  ⟨C9_create_ignores_id_and_date.1 "2026-10-11" false fdValidExtra fdValid rfl rfl rfl,
    C9_create_ignores_id_and_date.2 "2026-10-11" false fdValid ⟨"c1", 5, Status.paid⟩ rfl⟩

/-- C10: a form without an amount field is coerced to the number 0, so
validation fails with the amount message rather than a missing-field
error, while the summary message is the fixed Missing Fields string of
the respective action. -/
theorem C10_missing_amount_coerces_to_zero
    (fd : FormDataM) (hma : fd.amount = FieldVal.null) (today id : String) (dbFails : Bool) :
    jsNumber fd.amount = some 0 ∧
    ∃ fe, safeParseInvoiceForm fd = Except.error fe ∧
      fe.amount = ["Please enter an amount greater than $0."] ∧
      createInvoice today dbFails fd =
        ([], ActionResult.state ⟨some fe, some "Missing Fields. Failed to Create Invoice."⟩) ∧
      updateInvoice id dbFails fd =
        ([], ActionResult.state ⟨some fe, some "Missing Fields. Failed to Update Invoice."⟩) := by
  have hj : jsNumber fd.amount = some 0 := by rw [hma]; rfl
  have ha : validateAmount fd.amount =
      Except.error ["Please enter an amount greater than $0."] := by
    unfold validateAmount
    simp only [hj]
    rw [if_neg (lt_irrefl (0 : ℚ))]
  obtain ⟨fe, hp, hfa⟩ := safeParse_amount_error fd _ ha
  exact ⟨hj, fe, hp, hfa, by simp [createInvoice, hp], by simp [updateInvoice, hp]⟩

/-- Witness for C10 on a concrete form with no amount entry. -/
theorem C10_missing_amount_coerces_to_zero_witness :
    jsNumber fdNoAmount.amount = some 0 ∧
    ∃ fe, safeParseInvoiceForm fdNoAmount = Except.error fe ∧
      fe.amount = ["Please enter an amount greater than $0."] ∧
      createInvoice "2026-10-11" false fdNoAmount =
        ([], ActionResult.state ⟨some fe, some "Missing Fields. Failed to Create Invoice."⟩) ∧
      updateInvoice "inv1" false fdNoAmount =
        ([], ActionResult.state ⟨some fe, some "Missing Fields. Failed to Update Invoice."⟩) :=
  C10_missing_amount_coerces_to_zero fdNoAmount rfl "2026-10-11" "inv1" false

/-- C1 counterexample: for the submitted amount 0.005 (a > 0), validation
succeeds but the value passed to the INSERT is 100 * 0.005 = 1/2, which
is not the integer round(0.005 * 100) = 1: the code performs no
rounding. -/
theorem C1_counterexample_no_rounding :
    jsNumber (FieldVal.str "0.005") = some (1 / 200 : ℚ) ∧
    (0 : ℚ) < 1 / 200 ∧
    safeParseInvoiceForm fdTinyAmount =
      Except.ok ⟨"c1", (1 / 200 : ℚ), Status.paid⟩ ∧
    (createInvoice "2026-10-11" false fdTinyAmount).1 =
      [Event.insertInvoice "c1" (1 / 2 : ℚ) "paid" "2026-10-11",
        Event.revalidate "/dashboard/invoices", Event.redirectTo "/dashboard/invoices"] ∧
    ((1 / 2 : ℚ) ≠ ((round ((1 / 200 : ℚ) * 100) : ℤ) : ℚ)) := by
  have hj : jsNumber (FieldVal.str "0.005") =
      some (((0 : ℕ) : ℚ) + ((5 : ℕ) : ℚ) / (10 : ℚ) ^ 3) := rfl
  have hv : ((0 : ℕ) : ℚ) + ((5 : ℕ) : ℚ) / (10 : ℚ) ^ 3 = 1 / 200 := by norm_num
  have hjq : jsNumber fdTinyAmount.amount = some (1 / 200 : ℚ) := by
    show jsNumber (FieldVal.str "0.005") = some (1 / 200 : ℚ)
    rw [hj, hv]
  have ha : validateAmount fdTinyAmount.amount = Except.ok (1 / 200 : ℚ) := by
    unfold validateAmount
    simp only [hjq]
    rw [if_pos (by norm_num : (0 : ℚ) < 1 / 200)]
  have hp : safeParseInvoiceForm fdTinyAmount =
      Except.ok ⟨"c1", (1 / 200 : ℚ), Status.paid⟩ :=
    safeParse_ok fdTinyAmount "c1" (1 / 200) Status.paid rfl ha rfl
  refine ⟨by rw [hj, hv], by norm_num, hp, ?_, ?_⟩
  · simp only [createInvoice, hp]
    norm_num [Status.toDb]
  · have hr : round ((1 / 200 : ℚ) * 100) = 1 := by
      norm_num [round_eq]
    rw [hr]
    norm_num

/-- C1 (amended): an amount coercing to a ≤ 0 always fails validation
with the amount-specific message; an amount a > 0 validates, and when
the other fields validate too, the amount bound into the INSERT of
createInvoice is exactly 100 * a and the amount bound into the UPDATE of
updateInvoice is exactly a * 100 — with no rounding, so it is a whole
number of cents only when a is one. -/
theorem C1_amount_validation_and_cents (fd : FormDataM) (a : ℚ)
    (ha : jsNumber fd.amount = some a) :
    (a ≤ 0 → ∃ fe, safeParseInvoiceForm fd = Except.error fe ∧
      fe.amount = ["Please enter an amount greater than $0."]) ∧
    (0 < a → ∀ (c : String) (st : Status),
      validateCustomerId fd.customerId = Except.ok c →
      validateStatus fd.status = Except.ok st →
      safeParseInvoiceForm fd = Except.ok ⟨c, a, st⟩ ∧
      ∀ (today id : String) (dbFails : Bool),
        firstPassedAmount (createInvoice today dbFails fd).1 = some (100 * a) ∧
        firstPassedAmount (updateInvoice id dbFails fd).1 = some (a * 100)) := by
  constructor
  · intro hle
    apply safeParse_amount_error
    unfold validateAmount
    simp only [ha]
    rw [if_neg (not_lt.mpr hle)]
  · intro hpos c st hc hs
    have hva : validateAmount fd.amount = Except.ok a := by
      unfold validateAmount
      simp only [ha]
      rw [if_pos hpos]
    have hp := safeParse_ok fd c a st hc hva hs
    refine ⟨hp, ?_⟩
    intro today id dbFails
    cases dbFails <;>
      simp [createInvoice, updateInvoice, hp, firstPassedAmount, passedAmount]

/-- Witness for C1 (amended): amount 5 validates and 500 cents reach the
store; amount 0 fails with the amount message. -/
theorem C1_amount_validation_and_cents_witness :
    (safeParseInvoiceForm fdValid = Except.ok ⟨"c1", 5, Status.paid⟩ ∧
      ∀ (today id : String) (dbFails : Bool),
        firstPassedAmount (createInvoice today dbFails fdValid).1 = some (100 * 5) ∧
        firstPassedAmount (updateInvoice id dbFails fdValid).1 = some (5 * 100)) ∧
    (∃ fe, safeParseInvoiceForm fdZeroAmount = Except.error fe ∧
      fe.amount = ["Please enter an amount greater than $0."]) :=
  ⟨(C1_amount_validation_and_cents fdValid 5 rfl).2 (by norm_num) "c1" Status.paid rfl rfl,
    (C1_amount_validation_and_cents fdZeroAmount 0 rfl).1 le_rfl⟩
